import Mathlib

/-!
Verification development for the walmart-logistics-dashboard repository.

The development shallowly embeds the backend's order-fulfillment
integration layer (`routes/integration.js`), the Google-Maps service
wrapper (`services/googleMapsService.js`), the database service layer
(`services/databaseService.js` with its MongoDB / in-memory mock branches)
and the in-memory `Delivery` model (`models/Delivery.js`).

Modelling conventions:
- JavaScript numbers are modelled by `ℤ` (integral quantities, stock) and
  `ℚ` (prices, coordinates, epoch milliseconds); `NaN` is modelled by the
  `none` case of `JSNum := Option ℚ`.
- `Date.now()`, `Math.random()` and the derived fresh identifiers are
  modelled by an explicit environment (`Env`) supplying the sampled values.
- The external Google Maps provider (axios calls) is modelled by an oracle
  (`Provider`); every embedded routing function additionally returns the
  list of provider calls it issued.
- Mongoose schema validation (which runs on `save` / on update paths with
  `runValidators: true`) is embedded as explicit decidable checks; the
  silent `isMongoConnected` switch of `databaseService` is the `mongo`
  field of the store state `DB`.
-/

/-- JavaScript `a || b` on numbers, where `0` (and the absent field, also
modelled as `0`) is falsy. -/
def jsOrI (a b : ℤ) : ℤ := if a = 0 then b else a

/-- JavaScript `a || b` where `a` is a possibly absent string: `undefined`
and the empty string are falsy. -/
def jsOrStr (a : Option String) (b : String) : String :=
  match a with
  | none => b
  | some s => if s = "" then b else s

/-- JavaScript numbers including `NaN`: `none` is `NaN`, `some q` a finite
value (the rational model of the float). -/
def JSNum : Type := Option ℚ
deriving DecidableEq

/-- Multiplication on JS numbers: `NaN` is absorbing. -/
def jsMul (a : JSNum) (c : ℚ) : JSNum := Option.map (fun q => q * c) a

/-- Addition on JS numbers: `NaN` is absorbing. -/
def jsAdd (a : JSNum) (c : ℚ) : JSNum := Option.map (fun q => q + c) a

/-- Rounding to two decimals, the rational model of
`parseFloat(x.toFixed(2))` on a finite value (round half away from zero
for the nonnegative values that occur here). -/
def round2 (q : ℚ) : ℚ := (⌊q * 100 + 1 / 2⌋ : ℚ) / 100

/-- `parseFloat(x.toFixed(2))`: on `NaN`, `toFixed` yields the string
"NaN" and `parseFloat` yields `NaN` again. -/
def jsFixed2 (a : JSNum) : JSNum := Option.map round2 a

/-- The `miles` field of a route-distance object: either a numeric string
(modelled by its rational value, the source stores
`(meters * 0.000621371).toFixed(2)`) or the literal string "Unknown"
written by the fallback branch. -/
inductive MilesVal where
  | numeric (q : ℚ)
  | unknown
deriving DecidableEq

/-- JavaScript `ToNumber` applied to the `miles` field: a numeric string
converts to its value, the string "Unknown" converts to `NaN`. -/
def milesToNumber (m : MilesVal) : JSNum :=
  match m with
  | .numeric q => some q
  | .unknown => none

/-! Embedding of the email pattern used by the Mongo order schema,
`/^\w+([.-]?\w+)*@\w+([.-]?\w+)*(\.\w{2,3})+$/`. -/

/-- Membership in the regex class `\w`. -/
def isWordChar (c : Char) : Bool := c.isAlpha || c.isDigit || c = '_'

/-- Membership in the regex class `[.-]`. -/
def isSepChar (c : Char) : Bool := c = '.' || c = '-'

/-- Matches `([.-]?\w+)*` after an initial word character: word
characters freely, each separator immediately followed by a word
character, and the sequence may not end in a separator. -/
def wordSeqAux : List Char → Bool
  | [] => true
  | c :: rest =>
    if isWordChar c then wordSeqAux rest
    else if isSepChar c then
      match rest with
      | [] => false
      | d :: rest2 => isWordChar d && wordSeqAux rest2
    else false

/-- Matches `\w+([.-]?\w+)*` against the whole list. -/
def wordSeq : List Char → Bool
  | [] => false
  | c :: rest => isWordChar c && wordSeqAux rest

/-- Matches `(\.\w{2,3})+` against the whole list: one or more groups of
a dot followed by two or three word characters. -/
def tldPlus : List Char → Bool
  | '.' :: a :: b :: rest =>
    if isWordChar a && isWordChar b then
      match rest with
      | [] => true
      | c :: rest2 =>
        (isWordChar c && (rest2.isEmpty || tldPlus rest2)) || tldPlus (c :: rest2)
    else false
  | _ => false

/-- Matches `\w+([.-]?\w+)*(\.\w{2,3})+` by trying every split point
between the label part and the dot-group suffix (regex backtracking). -/
def domainMatch (l : List Char) : Bool :=
  (List.range l.length).any fun i => wordSeq (l.take i) && tldPlus (l.drop i)

/-- Splits a character list at its first `@`, if any. -/
def breakAtSign : List Char → Option (List Char × List Char)
  | [] => none
  | c :: rest =>
    if c = '@' then some ([], rest)
    else (breakAtSign rest).map fun p => (c :: p.1, p.2)

/-- The anchored email pattern of the order schema: since `\w` and `[.-]`
exclude `@`, a match contains exactly one `@` separating the local part
from the domain (a second `@` would be rejected by the domain matcher). -/
def emailMatch (s : String) : Bool :=
  match breakAtSign s.toList with
  | some (l, d) => wordSeq l && domainMatch d
  | none => false

example : emailMatch "john@example.com" = true := by decide
example : emailMatch "john.doe-x@mail.example.co" = true := by decide
example : emailMatch "john@example" = false := by decide
example : emailMatch "@example.com" = false := by decide

/-! Embedding of the in-memory `Delivery` model (`models/Delivery.js`):
the fields touched by `updateStatus`, with timestamps as epoch
milliseconds and absent timestamps as `none`. The random id generators
and the derived report fields (`toJSON`, delivery window) are not needed
by the claims and are omitted. -/

/-- State of an in-memory `Delivery` model instance. -/
structure DeliveryModel where
  delivery_id : String
  order_id : String
  driver_name : String
  vehicle_id : String
  pickup_address : String
  delivery_address : String
  pickup_time : Option ℚ
  estimated_delivery_time : Option ℚ
  actual_delivery_time : Option ℚ
  status : String
  notes : String
  priority : String
  updated_at : ℚ
deriving DecidableEq

/-- The model's list of valid delivery statuses. -/
def deliveryValidStatuses : List String :=
  ["pending", "picked_up", "in_transit", "delivered", "failed", "cancelled"]

/-- `Delivery.updateStatus(newStatus)` at time `now`: a valid status is
stored and bumps `updated_at`; `picked_up` sets `pickup_time` and
`delivered` sets `actual_delivery_time`, each only when the timestamp is
not already set (`!this.pickup_time`, `!this.actual_delivery_time`). An
invalid status leaves the record unchanged and returns `false`. -/
def DeliveryModel.updateStatus (d : DeliveryModel) (newStatus : String) (now : ℚ) :
    Bool × DeliveryModel :=
  if deliveryValidStatuses.contains newStatus then
    (true,
      { d with
        status := newStatus
        updated_at := now
        pickup_time :=
          if newStatus = "picked_up" ∧ d.pickup_time = none then some now else d.pickup_time
        actual_delivery_time :=
          if newStatus = "delivered" ∧ d.actual_delivery_time = none then some now
          else d.actual_delivery_time })
  else (false, d)

/-! Embedding of `GoogleMapsService` (`services/googleMapsService.js`).
The external HTTP provider is an oracle: `none` models any failed call
(non-OK API status or a network error). Every embedded routing function
also returns the list of provider calls it issued, in order. -/

/-- Geographic coordinates. -/
structure Coord where
  lat : ℚ
  lng : ℚ
deriving DecidableEq

/-- A location argument as the source passes it to the Distance Matrix
fallback: either still a free-text address (when geocoding did not run or
failed) or resolved coordinates. -/
inductive Loc where
  | addr (s : String)
  | coord (c : Coord)
deriving DecidableEq

/-- Leg data returned by the Routes API (`routes.distanceMeters`,
`routes.duration` as a seconds string, optional encoded polyline). -/
structure RouteData where
  distanceMeters : ℚ
  durationSeconds : ℕ
  polyline : Option String
deriving DecidableEq

/-- Element data returned by the Distance Matrix API. -/
structure DMData where
  distanceText : String
  distanceMeters : ℚ
  durationText : String
  durationSeconds : ℕ
  traffic : Option (String × ℕ)
deriving DecidableEq

/-- One leg of a Directions API response. -/
structure DirLeg where
  startAddress : String
  endAddress : String
  distanceText : String
  distanceValue : ℚ
  durationText : String
  durationValue : ℚ
  trafficText : Option String
deriving DecidableEq

/-- A Directions API response with waypoint optimization. -/
structure DirData where
  legs : List DirLeg
  waypoint_order : List ℕ
  overview_polyline : String
deriving DecidableEq

/-- A call issued to the external provider. The waypoint list of a
directions request stands for the `optimize:true|...`-joined parameter. -/
inductive ProviderCall where
  | geocode (address : String)
  | routes (origin destination : Coord)
  | distMatrix (origin destination : Loc)
  | directions (origin destination : String) (waypoints : List String)
deriving DecidableEq

/-- The external mapping provider as a pure oracle. -/
structure Provider where
  geocode : String → Option Coord
  routes : Coord → Coord → Option RouteData
  distMatrix : Loc → Loc → Option DMData
  directions : String → String → List String → Option DirData

/-- `formatDuration(seconds)`: hours and minutes, `"{h}h {m}m"` or
`"{m}m"`. -/
def formatDuration (seconds : ℕ) : String :=
  let hours := seconds / 3600
  let minutes := (seconds % 3600) / 60
  if hours > 0 then toString hours ++ "h " ++ toString minutes ++ "m"
  else toString minutes ++ "m"

/-- A route-distance object: the Distance Matrix branch carries a display
`text`, the Routes branch does not; both carry meters and a miles string
(`(meters * 0.000621371).toFixed(2)`). -/
structure RouteDistance where
  text : Option String
  meters : ℚ
  miles : MilesVal
deriving DecidableEq

/-- A route-duration object: display text and seconds. -/
structure RouteDuration where
  text : String
  seconds : ℕ
deriving DecidableEq

/-- The `route` object `calculateRoute` resolves with. -/
structure Route where
  distance : RouteDistance
  duration : RouteDuration
  duration_in_traffic : Option RouteDuration
  polyline : Option String
  estimated_arrival : ℚ
  traffic_conditions : String
  route_optimized : Bool
deriving DecidableEq

/-- The factor `0.000621371` converting meters to miles. -/
def milesPerMeter : ℚ := 621371 / 1000000000

/-- The `route` object built from a Routes API response: miles formatted
to two decimals, duration text via `formatDuration`, ETA `now + duration`
in epoch milliseconds. -/
def routeFromRoutesApi (rd : RouteData) (now : ℚ) : Route :=
  { distance :=
      { text := none
        meters := rd.distanceMeters
        miles := .numeric (round2 (rd.distanceMeters * milesPerMeter)) }
    duration := { text := formatDuration rd.durationSeconds, seconds := rd.durationSeconds }
    duration_in_traffic := none
    polyline := rd.polyline
    estimated_arrival := now + rd.durationSeconds * 1000
    traffic_conditions := "TRAFFIC_AWARE_CALCULATED"
    route_optimized := true }

/-- The `route` object built from a Distance Matrix response. -/
def routeFromDistanceMatrix (el : DMData) (now : ℚ) : Route :=
  { distance :=
      { text := some el.distanceText
        meters := el.distanceMeters
        miles := .numeric (round2 (el.distanceMeters * milesPerMeter)) }
    duration := { text := el.durationText, seconds := el.durationSeconds }
    duration_in_traffic := el.traffic.map fun t => { text := t.1, seconds := t.2 }
    polyline := none
    estimated_arrival := now + el.durationSeconds * 1000
    traffic_conditions := if el.traffic.isSome then "TRAFFIC_AWARE" else "NORMAL"
    route_optimized := true }

/-- `calculateRoute(origin, destination)` for string (address) arguments,
as the integration layer calls it: geocode both ends, call the Routes
API, and on any failure inside the `try` fall back to the Distance
Matrix API with whatever `originCoords`/`destCoords` hold at that point
(still the raw address strings when geocoding failed or never ran).
Returns the result together with the provider calls issued. -/
def calculateRoute (origin destination : String) (p : Provider) (now : ℚ) :
    Except String Route × List ProviderCall :=
  match p.geocode origin with
  | none =>
    let calls := [ProviderCall.geocode origin,
                  ProviderCall.distMatrix (.addr origin) (.addr destination)]
    match p.distMatrix (.addr origin) (.addr destination) with
    | some el => (.ok (routeFromDistanceMatrix el now), calls)
    | none => (.error "Distance calculation failed", calls)
  | some oc =>
    match p.geocode destination with
    | none =>
      let calls := [ProviderCall.geocode origin, ProviderCall.geocode destination,
                    ProviderCall.distMatrix (.coord oc) (.addr destination)]
      match p.distMatrix (.coord oc) (.addr destination) with
      | some el => (.ok (routeFromDistanceMatrix el now), calls)
      | none => (.error "Distance calculation failed", calls)
    | some dc =>
      match p.routes oc dc with
      | some rd =>
        ((.ok (routeFromRoutesApi rd now)),
         [ProviderCall.geocode origin, ProviderCall.geocode destination,
          ProviderCall.routes oc dc])
      | none =>
        let calls := [ProviderCall.geocode origin, ProviderCall.geocode destination,
                      ProviderCall.routes oc dc,
                      ProviderCall.distMatrix (.coord oc) (.coord dc)]
        match p.distMatrix (.coord oc) (.coord dc) with
        | some el => (.ok (routeFromDistanceMatrix el now), calls)
        | none => (.error "Distance calculation failed", calls)

/-- One output leg of an optimized multi-stop route. -/
structure OptimizedLeg where
  step : ℕ
  start_address : String
  end_address : String
  distance : String
  duration : String
  traffic_duration : Option String
deriving DecidableEq

/-- The `optimized_route` object of a multi-stop optimization. -/
structure OptimizedRoute where
  total_distance : ℚ
  total_duration : ℚ
  waypoint_order : List ℕ
  legs : List OptimizedLeg
  polyline : String
  optimized : Bool
  estimated_completion : ℚ
deriving DecidableEq

/-- Result shapes of `optimizeDeliveryRoute`: the single-destination
branch returns the raw `calculateRoute` shape (`{success, route}`), the
multi-stop branch the `{success, optimized_route}` shape, and failures
the `{success: false, error}` shape. -/
inductive OptimizeResult where
  | failed (error : String)
  | singleRoute (r : Route)
  | multiRoute (r : OptimizedRoute)
deriving DecidableEq

/-- `optimizeDeliveryRoute(origin, destinations)`: throws (returning the
error shape) on an empty destination list before any provider call; for
one destination delegates to `calculateRoute`; for several calls the
Directions API with `optimize:true` waypoints (all but the last
destination) and aggregates leg distances and durations. -/
def optimizeDeliveryRoute (origin : String) (destinations : List String)
    (p : Provider) (now : ℚ) : OptimizeResult × List ProviderCall :=
  match destinations with
  | [] => (.failed "No destinations provided", [])
  | [d] =>
    match calculateRoute origin d p now with
    | (.ok r, calls) => (.singleRoute r, calls)
    | (.error e, calls) => (.failed e, calls)
  | d1 :: d2 :: rest =>
    let dests := d1 :: d2 :: rest
    let waypoints := dests.dropLast
    let finalDestination := dests.getLastD d1
    let calls := [ProviderCall.directions origin finalDestination waypoints]
    match p.directions origin finalDestination waypoints with
    | some dd =>
      let totalDuration := (dd.legs.map fun leg => leg.durationValue).sum
      (.multiRoute
        { total_distance := (dd.legs.map fun leg => leg.distanceValue).sum
          total_duration := totalDuration
          waypoint_order := dd.waypoint_order
          legs := dd.legs.enum.map fun il =>
            { step := il.1 + 1
              start_address := il.2.startAddress
              end_address := il.2.endAddress
              distance := il.2.distanceText
              duration := il.2.durationText
              traffic_duration := il.2.trafficText }
          polyline := dd.overview_polyline
          optimized := true
          estimated_completion := now + totalDuration * 1000 }, calls)
    | none => (.failed "Route optimization failed", calls)

/-- `generateMapsLink` for two address strings (URL-encoding of the
address text is not modelled). -/
def generateMapsLink (origin destination : String) : String :=
  "https://www.google.com/maps/dir/" ++ origin ++ "/" ++ destination

/-- The default warehouse origin used by the integration layer. -/
def warehouseAddress : String :=
  "Walmart Distribution Center, 508 SW 8th St, Bentonville, AR 72716"

/-! Entity records and the store state. String fields that mongoose
would trim/lowercase are normalized with list-level helpers (the
built-in `String.trim` does not reduce well in the kernel). -/

/-- Whitespace for the trim setter. -/
def isWs (c : Char) : Bool := c = ' ' || c = '\t' || c = '\n' || c = '\r'

/-- The mongoose `trim: true` setter. -/
def jsTrim (s : String) : String :=
  String.mk (((s.toList.dropWhile isWs).reverse.dropWhile isWs).reverse)

/-- The mongoose `lowercase: true` setter. -/
def jsLower (s : String) : String := String.mk (s.toList.map Char.toLower)

/-- Does `needle` occur as a prefix of `haystack`? -/
def chunkPrefix : List Char → List Char → Bool
  | [], _ => true
  | _ :: _, [] => false
  | n :: ns, h :: hs => n = h && chunkPrefix ns hs

/-- Does `needle` occur contiguously inside `haystack`
(JavaScript `String.prototype.includes`)? -/
def hasSubChunk (needle : List Char) : List Char → Bool
  | [] => needle.isEmpty
  | h :: t => chunkPrefix needle (h :: t) || hasSubChunk needle t

/-- The Mongo order schema's status enum. -/
def orderStatuses : List String := ["pending", "shipped", "delivered", "cancelled"]

/-- The Mongo order schema's payment-method enum. -/
def paymentMethods : List String :=
  ["Credit Card", "Debit Card", "PayPal", "Cash on Delivery"]

/-- The Mongo product schema's status enum. -/
def productStatuses : List String := ["active", "inactive", "discontinued"]

/-- The Mongo delivery schema's status enum (same list as the in-memory
model's `getValidStatuses`). -/
def deliverySchemaStatuses : List String :=
  ["pending", "picked_up", "in_transit", "delivered", "failed", "cancelled"]

/-- The Mongo delivery schema's priority enum. -/
def deliveryPriorities : List String := ["low", "normal", "high", "urgent"]

/-- A raw order-creation request body (`req.body` of POST
/api/integration/order). `none` models an absent field. -/
structure OrderInput where
  order_id : Option String
  customer_name : Option String
  customer_email : Option String
  product_id : Option String
  product_name : Option String
  quantity : Option ℤ
  price : Option ℚ
  status : Option String
  delivery_address : Option String
  payment_method : Option String
deriving DecidableEq

/-- A stored order record (the fields the integration layer reads;
`order_date` and the created/updated timestamps are not needed by any
claim and are omitted). `id` is the store key (`_id` respectively the
mock model's numeric id). -/
structure StoredOrder where
  id : ℤ
  order_id : String
  customer_name : String
  customer_email : String
  product_id : String
  product_name : String
  quantity : ℤ
  price : ℚ
  status : String
  delivery_address : String
  payment_method : String
deriving DecidableEq

/-- A stored product record. `quantity_alt` models the legacy `quantity`
field and `min_stock_level` the legacy `min_stock_level` field read by
the `||` fallback chains of `updateInventoryForOrder`; both are absent
from the schemas of this repository and therefore `0` (JS-falsy, exactly
like an explicit `0`). -/
structure Product where
  id : ℤ
  sku : String
  name : String
  stock_quantity : ℤ
  quantity_alt : ℤ
  reorder_level : ℤ
  min_stock_level : ℤ
  price : ℚ
  cost : ℚ
  supplier : String
  location : String
  status : String
deriving DecidableEq

/-- A delivery partner from the hard-coded pool. -/
structure Partner where
  name : String
  id : String
  priority : String
  phone : String
  hub : String
deriving DecidableEq

/-- The hard-coded delivery partner pool. -/
def deliveryPartners : List Partner :=
  [{ name := "FedEx Express", id := "FDX-001", priority := "high",
     phone := "1-800-FEDEX", hub := "123 FedEx Way, Distribution City" },
   { name := "UPS Standard", id := "UPS-002", priority := "normal",
     phone := "1-800-PICKUP", hub := "456 UPS Drive, Logistics Town" },
   { name := "DHL FastTrack", id := "DHL-003", priority := "express",
     phone := "1-800-CALL-DHL", hub := "789 DHL Avenue, Express City" },
   { name := "USPS Priority", id := "USPS-004", priority := "economy",
     phone := "1-800-ASK-USPS", hub := "321 USPS Street, Mail Center" }]

/-- Pool selection `pool[Math.floor(Math.random() * 4)]`, with the
sampled index supplied by the environment. -/
def partnerAt (k : ℕ) : Partner :=
  (deliveryPartners.getD (k % 4)
    { name := "FedEx Express", id := "FDX-001", priority := "high",
      phone := "1-800-FEDEX", hub := "123 FedEx Way, Distribution City" })

/-- The hard-coded driver pool. -/
def driverPool : List String :=
  ["Mike Johnson", "Sarah Smith", "David Wilson", "Lisa Brown", "Tom Davis"]

/-- Pool selection for drivers. -/
def driverAt (k : ℕ) : String := driverPool.getD (k % 5) "Mike Johnson"

/-- A warehouse worker from the hard-coded pool. -/
structure Worker where
  name : String
  id : String
  zone : String
  shift : String
deriving DecidableEq

/-- The hard-coded warehouse worker pool. -/
def workerPool : List Worker :=
  [{ name := "John Martinez", id := "WH-001", zone := "Picking", shift := "Day" },
   { name := "Emily Chen", id := "WH-002", zone := "Packing", shift := "Day" },
   { name := "Robert Johnson", id := "WH-003", zone := "Shipping", shift := "Night" },
   { name := "Maria Garcia", id := "WH-004", zone := "Quality", shift := "Day" },
   { name := "David Kim", id := "WH-005", zone := "Receiving", shift := "Day" }]

/-- Pool selection for workers. -/
def workerAt (k : ℕ) : Worker :=
  workerPool.getD (k % 5)
    { name := "John Martinez", id := "WH-001", zone := "Picking", shift := "Day" }

/-- The `route_info` object stored on a delivery payload. -/
structure RouteInfoRec where
  distance : RouteDistance
  duration : RouteDuration
  google_maps_link : Option String
  route_optimized : Bool
  traffic_aware : Bool
deriving DecidableEq

/-- The `google_integration` audit object of a delivery payload. -/
structure GoogleIntegration where
  geocoded : Bool
  route_calculated : Bool
  maps_link_generated : Bool
deriving DecidableEq

/-- The `deliveryData` payload assembled by `createDeliveryForOrder`
(also the shape of a stored delivery record; the assignment timestamp
string is omitted). -/
structure DeliveryPayload where
  delivery_id : String
  order_id : String
  driver_name : String
  delivery_partner : String
  partner_id : String
  partner_phone : String
  partner_hub : String
  vehicle_id : String
  pickup_address : String
  delivery_address : String
  delivery_coordinates : Coord
  estimated_delivery_time : ℚ
  route_info : RouteInfoRec
  status : String
  priority : String
  special_instructions : String
  customer_phone : String
  delivery_fee : JSNum
  auto_assigned : Bool
  google_integration : GoogleIntegration
deriving DecidableEq

/-- The `warehouseData` payload assembled by `updateWarehouseForOrder`
(also the shape of a stored warehouse record; timestamp strings and the
free-text worker notes are omitted). The payload has no `name`,
`location`, `capacity` or `manager_name` field. -/
structure WarehousePayload where
  warehouse_id : String
  order_id : String
  product_name : String
  quantity : ℤ
  status : String
  assigned_worker : String
  worker_id : String
  worker_zone : String
  worker_shift : String
  bin_location : String
  shelf_number : String
  zone : String
  priority_level : String
  picking_status : String
  packing_status : String
  dispatch_status : String
  quality_check : String
  packaging_type : String
  worker_notification_sent : Bool
deriving DecidableEq

/-- The store state: the four collections plus the
`isMongoConnected` flag of `databaseService` that selects between the
MongoDB branch (schema validation) and the in-memory mock branch (no
validation). -/
structure DB where
  mongo : Bool
  orders : List StoredOrder
  products : List Product
  deliveries : List DeliveryModel
  warehouses : List WarehousePayload
deriving DecidableEq

/-- The environment: clock, provider oracle, and the sampled random
values (ids, pool indices, jitters) consumed by one request. -/
structure Env where
  now : ℚ
  provider : Provider
  etaRand : ℚ
  latJitter : ℚ
  lngJitter : ℚ
  partnerIdx : ℕ
  driverIdx : ℕ
  workerIdx : ℕ
  orderRecId : ℤ
  genOrderId : String
  genProductId : String
  deliveryId : String
  vehicleId : String
  warehouseId : String
  binLocation : String
  shelfNumber : String

/-! Store operations (`databaseService`). -/

/-- The effective order record `createOrder` builds in the MongoDB
branch: spread of the request body with `order_id`/`product_id`
defaulted via `||` to generated ids and `status` defaulted via `||` to
`pending`; the schema setters trim the text fields and lowercase the
email. Absent text fields are modelled as `""` (what mongoose would
reject as missing is exactly what fails the required check below). -/
def mkMongoOrder (i : OrderInput) (env : Env) : StoredOrder :=
  { id := env.orderRecId
    order_id := jsOrStr i.order_id env.genOrderId
    customer_name := jsTrim (i.customer_name.getD "")
    customer_email := jsLower (jsTrim (i.customer_email.getD ""))
    product_id := jsOrStr i.product_id env.genProductId
    product_name := jsTrim (i.product_name.getD "")
    quantity := i.quantity.getD 0
    price := i.price.getD 0
    status := jsOrStr i.status "pending"
    delivery_address := jsTrim (i.delivery_address.getD "")
    payment_method := i.payment_method.getD "Credit Card" }

/-- Validation of the MongoDB order schema, run by `order.save()`:
required nonempty strings (after trim), the email pattern, `quantity`
present with `min: 1`, `price` present with `min: 0`, and the status and
payment-method enums (`payment_method` defaults to `Credit Card` only
when absent). -/
def validateOrderInput (i : OrderInput) (env : Env) : Bool :=
  jsOrStr i.order_id env.genOrderId != "" &&
  jsTrim (i.customer_name.getD "") != "" &&
  (let e := jsLower (jsTrim (i.customer_email.getD ""))
   e != "" && emailMatch e) &&
  jsOrStr i.product_id env.genProductId != "" &&
  jsTrim (i.product_name.getD "") != "" &&
  (match i.quantity with
   | some q => decide (1 ≤ q)
   | none => false) &&
  (match i.price with
   | some p => decide (0 ≤ p)
   | none => false) &&
  orderStatuses.contains (jsOrStr i.status "pending") &&
  paymentMethods.contains (i.payment_method.getD "Credit Card") &&
  jsTrim (i.delivery_address.getD "") != ""

/-- The mock `Order` constructor: destructuring defaults for
`status`/`payment_method`, `||` defaults for the ids, and no validation
at all. Absent text fields are stored as `""` and absent numeric fields
as `0` (standing in for `undefined`; the source would store `undefined`
and let `NaN` propagate through later arithmetic — no theorem below
exercises that unmodelled corner). -/
def mkMockOrder (i : OrderInput) (env : Env) : StoredOrder :=
  { id := env.orderRecId
    order_id := jsOrStr i.order_id env.genOrderId
    customer_name := i.customer_name.getD ""
    customer_email := i.customer_email.getD ""
    product_id := i.product_id.getD ""
    product_name := i.product_name.getD ""
    quantity := i.quantity.getD 0
    price := i.price.getD 0
    status := i.status.getD "pending"
    delivery_address := i.delivery_address.getD ""
    payment_method := i.payment_method.getD "Credit Card" }

/-- `databaseService.createOrder`: the MongoDB branch validates the
schema on save (an invalid document throws and nothing is stored); the
mock branch pushes an unvalidated mock `Order`. -/
def createOrderStore (db : DB) (i : OrderInput) (env : Env) :
    Except String (StoredOrder × DB) :=
  if db.mongo then
    if validateOrderInput i env then
      let o := mkMongoOrder i env
      .ok (o, { db with orders := db.orders ++ [o] })
    else .error "Order validation failed"
  else
    let o := mkMockOrder i env
    .ok (o, { db with orders := db.orders ++ [o] })

/-- Replaces the status of the first order with the given id, returning
the updated order and list. -/
def setOrderStatus (id : ℤ) (status : String) :
    List StoredOrder → Option (StoredOrder × List StoredOrder)
  | [] => none
  | o :: rest =>
    if o.id = id then some ({ o with status := status }, { o with status := status } :: rest)
    else (setOrderStatus id status rest).map fun p => (p.1, o :: p.2)

/-- `databaseService.updateOrder(id, { status })`: the MongoDB branch
runs the update validators (`runValidators: true`), so an out-of-enum
status rejects the update (throw) before anything is written; the mock
branch `Object.assign`s the raw value with no validation. A missing id
yields `null`. -/
def updateOrderStore (db : DB) (id : ℤ) (status : String) :
    Except String (Option (StoredOrder × DB)) :=
  if db.mongo then
    if orderStatuses.contains status then
      match setOrderStatus id status db.orders with
      | some (o, orders) => .ok (some (o, { db with orders := orders }))
      | none => .ok none
    else .error "Order validation failed: status"
  else
    match setOrderStatus id status db.orders with
    | some (o, orders) => .ok (some (o, { db with orders := orders }))
    | none => .ok none

/-- The product status string written by the inventory step. -/
def stockStatusFor (newStock reorderLevel : ℤ) : String :=
  if newStock = 0 then "out_of_stock"
  else if newStock < reorderLevel then "low_stock"
  else "in_stock"

/-- Replaces stock and status of the first product with the given id
(the mock `updateProduct` branch; unknown update paths such as
`last_updated` are not modelled). -/
def setProductStock (id : ℤ) (newStock : ℤ) (newStatus : String) :
    List Product → List Product
  | [] => []
  | q :: rest =>
    if q.id = id then { q with stock_quantity := newStock, status := newStatus } :: rest
    else q :: setProductStock id newStock newStatus rest

/-- `databaseService.updateProduct(id, {stock_quantity, status, ...})`:
the MongoDB branch runs the update validators on the updated paths, so
`stock_quantity` must satisfy `min: 0` and `status` must be in the
product enum (`active`/`inactive`/`discontinued`) or the update throws;
unknown paths are silently stripped. The mock branch assigns without
validation. -/
def updateProductStore (db : DB) (id : ℤ) (newStock : ℤ) (newStatus : String) :
    Except String DB :=
  if db.mongo then
    if decide (0 ≤ newStock) && productStatuses.contains newStatus then
      .ok { db with products := setProductStock id newStock newStatus db.products }
    else .error "Product validation failed"
  else
    .ok { db with products := setProductStock id newStock newStatus db.products }

/-- Validation of the MongoDB delivery schema on save: required nonempty
strings and the status and priority enums. -/
def validateDeliveryPayload (d : DeliveryPayload) : Bool :=
  d.delivery_id != "" && d.order_id != "" &&
  jsTrim d.driver_name != "" && jsTrim d.vehicle_id != "" &&
  jsTrim d.pickup_address != "" && jsTrim d.delivery_address != "" &&
  deliverySchemaStatuses.contains d.status &&
  deliveryPriorities.contains d.priority

/-- The stored delivery record built from `deliveryData`: the in-memory
`Delivery` constructor keeps only its fixed parameter list — everything
else on the payload (`delivery_fee`, `route_info`, `delivery_coordinates`,
the partner fields, `customer_phone`, `special_instructions`,
`auto_assigned`, `google_integration`) is dropped. `pickup_time` and
`actual_delivery_time` are absent from the payload and default to null,
`notes` to the empty string, and `created_at`/`updated_at` to the current
time. (The `|| generate...Id()` fallbacks for a falsy `id`/`delivery_id`
are dead for this caller, which always supplies a nonempty delivery id;
the random numeric `id` is not modelled. The Mongo schema, were its
validation ever passed, would keep the same subset: unknown paths are
stripped in strict mode.) -/
def mkDeliveryRecord (d : DeliveryPayload) (now : ℚ) : DeliveryModel :=
  { delivery_id := d.delivery_id
    order_id := d.order_id
    driver_name := d.driver_name
    vehicle_id := d.vehicle_id
    pickup_address := d.pickup_address
    delivery_address := d.delivery_address
    pickup_time := none
    estimated_delivery_time := some d.estimated_delivery_time
    actual_delivery_time := none
    status := d.status
    notes := ""
    priority := d.priority
    updated_at := now }

/-- `databaseService.createDelivery`: the MongoDB branch validates the
schema on save and throws on failure (storing nothing); the mock branch
pushes `new Delivery(deliveryData)` unvalidated — the constructor's
field subset of the payload (`mkDeliveryRecord`), not the payload
itself. -/
def createDeliveryStore (db : DB) (d : DeliveryPayload) (now : ℚ) : Except String DB :=
  if db.mongo then
    if validateDeliveryPayload d then
      .ok { db with deliveries := db.deliveries ++ [mkDeliveryRecord d now] }
    else .error "Delivery validation failed"
  else .ok { db with deliveries := db.deliveries ++ [mkDeliveryRecord d now] }

/-- `databaseService.createWarehouse`: the MongoDB warehouse schema
requires `name`, `location`, `capacity` and `manager_name`, none of
which exist on the `warehouseData` payload (see `WarehousePayload`), so
the MongoDB branch always throws a validation error; the mock branch
pushes the payload unvalidated. -/
def createWarehouseStore (db : DB) (w : WarehousePayload) : Except String DB :=
  if db.mongo then
    .error "Warehouse validation failed: name, location, capacity, manager_name required"
  else .ok { db with warehouses := db.warehouses ++ [w] }

/-! Embedding of the integration route helpers (`routes/integration.js`). -/

/-- The product lookup of `updateInventoryForOrder`:
`p.name && p.name.toLowerCase().includes(order.product_name.toLowerCase())`. -/
def productNameMatches (p : Product) (orderProductName : String) : Bool :=
  p.name != "" &&
  hasSubChunk (orderProductName.toList.map Char.toLower) (p.name.toList.map Char.toLower)

/-- The inventory detail object of the integration report (the fixed
status/automation strings of the source object are omitted;
`previous_stock` is only set on the found-product branch). -/
structure InvDetails where
  product_name : String
  quantity_reduced : ℤ
  new_stock_level : ℤ
  low_stock_alert : Bool
  previous_stock : Option ℤ
  reorder_triggered : Bool
deriving DecidableEq

/-- Result of one integration step over the inventory store. -/
structure InvResult where
  success : Bool
  details : Option InvDetails
  error : Option String
deriving DecidableEq

/-- `updateInventoryForOrder(order)`: find the product by
case-insensitive name containment; when found, compute
`currentStock = stock_quantity || quantity || 100` (JS `||`, so a stored
stock of `0` falls through to the default), `newStock =
Math.max(0, currentStock - order.quantity)`,
`reorderLevel = reorder_level || min_stock_level || 10`, the low-stock
and reorder flags, and write the new stock and derived status through
`updateProduct`; a thrown store error is caught and reported as
`{success: false, error}` (the computed details are discarded). When no
product matches, the simulated baseline of 100 is reported and nothing
is written. -/
def updateInventoryForOrder (order : StoredOrder) (db : DB) : InvResult × DB :=
  match db.products.find? (fun p => productNameMatches p order.product_name) with
  | some product =>
    let currentStock := jsOrI product.stock_quantity (jsOrI product.quantity_alt 100)
    let newStock := max 0 (currentStock - order.quantity)
    let reorderLevel := jsOrI product.reorder_level (jsOrI product.min_stock_level 10)
    let details : InvDetails :=
      { product_name := order.product_name
        quantity_reduced := order.quantity
        new_stock_level := newStock
        low_stock_alert := decide (newStock < reorderLevel)
        previous_stock := some currentStock
        reorder_triggered := decide (newStock ≤ reorderLevel) }
    match updateProductStore db product.id newStock (stockStatusFor newStock reorderLevel) with
    | .ok db2 => ({ success := true, details := some details, error := none }, db2)
    | .error e => ({ success := false, details := none, error := some e }, db)
  | none =>
    let newStock := max 0 (100 - order.quantity)
    ({ success := true
       details := some
         { product_name := order.product_name
           quantity_reduced := order.quantity
           new_stock_level := newStock
           low_stock_alert := decide (newStock < 10)
           previous_stock := none
           reorder_triggered := false }
       error := none }, db)

/-- The `deliveryData` payload assembled by `createDeliveryForOrder`:
random partner/driver/vehicle assignment from the environment, a route
computed via `calculateRoute` from the warehouse origin, the fallback
branch on route failure (ETA `now + (1 + Math.random() * 2)` days, miles
`"Unknown"`, duration `"Calculating..."`, no maps link), geocoded or
jittered default coordinates, and the distance-based fee
`parseFloat((miles * 0.5 + 2.99).toFixed(2))`. The schema-created orders
carry no `special_instructions`/`customer_phone` field, so the `||`
defaults always apply. -/
def mkDeliveryPayload (order : StoredOrder) (env : Env) : DeliveryPayload :=
  let assignedPartner := partnerAt env.partnerIdx
  let assignedDriver := driverAt env.driverIdx
  let routeInfo := (calculateRoute warehouseAddress order.delivery_address env.provider env.now).1
  let routeOk := routeInfo.toBool
  let estimatedDelivery :=
    match routeInfo with
    | .ok r => r.estimated_arrival
    | .error _ => env.now + (1 + env.etaRand * 2) * 86400000
  let routeDistance :=
    match routeInfo with
    | .ok r => r.distance
    | .error _ => { text := none, meters := 0, miles := .unknown }
  let routeDuration :=
    match routeInfo with
    | .ok r => r.duration
    | .error _ => { text := "Calculating...", seconds := 0 }
  let googleMapsLink :=
    match routeInfo with
    | .ok _ => some (generateMapsLink warehouseAddress order.delivery_address)
    | .error _ => none
  let geocodeResult := env.provider.geocode order.delivery_address
  let deliveryCoordinates :=
    match geocodeResult with
    | some c => c
    | none =>
      { lat := 407128 / 10000 + (env.latJitter - 1 / 2) * (1 / 10)
        lng := -740060 / 10000 + (env.lngJitter - 1 / 2) * (1 / 10) }
  { delivery_id := env.deliveryId
    order_id := order.order_id
    driver_name := assignedDriver
    delivery_partner := assignedPartner.name
    partner_id := assignedPartner.id
    partner_phone := assignedPartner.phone
    partner_hub := assignedPartner.hub
    vehicle_id := env.vehicleId
    pickup_address := warehouseAddress
    delivery_address := order.delivery_address
    delivery_coordinates := deliveryCoordinates
    estimated_delivery_time := estimatedDelivery
    route_info :=
      { distance := routeDistance
        duration := routeDuration
        google_maps_link := googleMapsLink
        route_optimized := routeOk
        traffic_aware := routeOk }
    status := "automatically_assigned_with_route"
    priority := if order.quantity > 3 then "high" else "normal"
    special_instructions := "Handle with care"
    customer_phone := "555-0123"
    delivery_fee :=
      jsFixed2 (jsAdd (jsMul (milesToNumber routeDistance.miles) (1 / 2)) (299 / 100))
    auto_assigned := true
    google_integration :=
      { geocoded := geocodeResult.isSome
        route_calculated := routeOk
        maps_link_generated := googleMapsLink.isSome } }

/-- Result of the delivery integration step (the success echo object is
a projection of the stored payload). -/
structure DelResult where
  success : Bool
  details : Option DeliveryPayload
  error : Option String
deriving DecidableEq

/-- `createDeliveryForOrder(order)`: assemble the payload (route failure
only selects the fallback fields, it never throws) and store it through
`createDelivery`; a thrown store error is caught and reported as
`{success: false, error}`. -/
def createDeliveryForOrder (order : StoredOrder) (db : DB) (env : Env) : DelResult × DB :=
  let payload := mkDeliveryPayload order env
  match createDeliveryStore db payload env.now with
  | .ok db2 => ({ success := true, details := some payload, error := none }, db2)
  | .error e => ({ success := false, details := none, error := some e }, db)

/-- Result of the warehouse integration step. -/
structure WhResult where
  success : Bool
  details : Option WarehousePayload
  error : Option String
deriving DecidableEq

/-- The `warehouseData` payload assembled by `updateWarehouseForOrder`:
random worker/bin/shelf assignment from the environment and the fixed
automation literals (decorative emoji prefixes of the status strings are
dropped). -/
def mkWarehousePayload (order : StoredOrder) (env : Env) : WarehousePayload :=
  let assignedWorker := workerAt env.workerIdx
  { warehouse_id := env.warehouseId
    order_id := order.order_id
    product_name := order.product_name
    quantity := order.quantity
    status := "AUTOMATICALLY_DISPATCHED_FROM_WAREHOUSE"
    assigned_worker := assignedWorker.name
    worker_id := assignedWorker.id
    worker_zone := assignedWorker.zone
    worker_shift := assignedWorker.shift
    bin_location := env.binLocation
    shelf_number := env.shelfNumber
    zone := "Automated_Processing"
    priority_level := if order.quantity > 3 then "high" else "normal"
    picking_status := "automatically_completed"
    packing_status := "automatically_completed"
    dispatch_status := "automatically_dispatched"
    quality_check := "automatically_passed"
    packaging_type := if order.quantity > 2 then "large_box" else "standard_box"
    worker_notification_sent := true }

/-- `updateWarehouseForOrder(order)`: assemble the payload and store it
through `createWarehouse`; a thrown store error is caught and reported
as `{success: false, error}`. -/
def updateWarehouseForOrder (order : StoredOrder) (db : DB) (env : Env) : WhResult × DB :=
  let payload := mkWarehousePayload order env
  match createWarehouseStore db payload with
  | .ok db2 => ({ success := true, details := some payload, error := none }, db2)
  | .error e => ({ success := false, details := none, error := some e }, db)

/-- The `integration_status`/`details` object of a successful POST
/api/integration/order response. -/
structure IntegrationReport where
  order_created : Bool
  inventory_updated : Bool
  delivery_created : Bool
  warehouse_updated : Bool
  inventory_details : Option InvDetails
  delivery_details : Option DeliveryPayload
  warehouse_details : Option WarehousePayload
deriving DecidableEq

/-- Outcome of POST /api/integration/order: a thrown error becomes a 500
response, otherwise the created order plus the integration report. -/
inductive PlaceResult where
  | error (message : String)
  | ok (order : StoredOrder) (report : IntegrationReport)
deriving DecidableEq

/-- Did order placement respond successfully? -/
def PlaceResult.isOk : PlaceResult → Bool
  | .ok _ _ => true
  | .error _ => false

/-- POST /api/integration/order: create the order (a validation throw
aborts the whole request with nothing stored), then run the inventory,
delivery and warehouse steps in sequence — each catches its own store
errors, so the response is a success with a per-step report whenever the
order itself was stored. -/
def placeOrder (i : OrderInput) (db : DB) (env : Env) : PlaceResult × DB :=
  match createOrderStore db i env with
  | .error e => (.error e, db)
  | .ok (order, db1) =>
    let inv := updateInventoryForOrder order db1
    let del := createDeliveryForOrder order inv.2 env
    let wh := updateWarehouseForOrder order del.2 env
    (.ok order
      { order_created := true
        inventory_updated := inv.1.success
        delivery_created := del.1.success
        warehouse_updated := wh.1.success
        inventory_details := inv.1.details
        delivery_details := del.1.details
        warehouse_details := wh.1.details }, wh.2)

/-! Embedding of PATCH /api/integration/order/:id/status. -/

/-- The echo object returned by the `updateDeliveryStatus` and
`updateWarehouseStatus` helpers. -/
structure StatusEcho where
  success : Bool
  new_status : String
deriving DecidableEq

/-- `updateDeliveryStatus(orderId, status)`: the helper only logs and
echoes `{success: true, new_status}` — it reads and writes no store. -/
def updateDeliveryStatusStub (status : String) : StatusEcho :=
  { success := true, new_status := status }

/-- `updateWarehouseStatus(orderId, status)`: the helper only logs and
echoes `{success: true, new_status}` — it reads and writes no store. -/
def updateWarehouseStatusStub (status : String) : StatusEcho :=
  { success := true, new_status := status }

/-- The echo object returned by `restoreInventoryForCancelledOrder`. -/
structure RestoreEcho where
  success : Bool
  restored_quantity : ℤ
  product_name : String
deriving DecidableEq

/-- `restoreInventoryForCancelledOrder(order)`: the helper only logs
"Restored ..." and echoes the order quantity as `restored_quantity` — it
performs no store operation, so no stock is written back. -/
def restoreInventoryForCancelledOrder (order : StoredOrder) : RestoreEcho :=
  { success := true, restored_quantity := order.quantity, product_name := order.product_name }

/-- The `integration_results` object of the status-update response. -/
structure StatusIntegration where
  inventory : Option RestoreEcho
  delivery : Option StatusEcho
  warehouse : Option StatusEcho
deriving DecidableEq

/-- Outcome of PATCH /api/integration/order/:id/status. -/
inductive PatchResult where
  | serverError (message : String)
  | notFound
  | ok (order : StoredOrder) (results : StatusIntegration)
deriving DecidableEq

/-- PATCH /api/integration/order/:id/status: update the order through
`updateOrder` (a throw becomes a 500 with nothing further run, a missing
order a 404), then dispatch on the new status — `shipped` echoes
delivery `in-transit` and warehouse `shipped`, `delivered` echoes
`delivered`/`completed`, and `cancelled` echoes the inventory
restoration plus `cancelled`/`cancelled`; all three helpers are store-
free stubs. -/
def updateOrderStatusRoute (db : DB) (id : ℤ) (status : String) : PatchResult × DB :=
  match updateOrderStore db id status with
  | .error e => (.serverError e, db)
  | .ok none => (.notFound, db)
  | .ok (some (order, db1)) =>
    let results : StatusIntegration :=
      if status = "shipped" then
        { inventory := none
          delivery := some (updateDeliveryStatusStub "in-transit")
          warehouse := some (updateWarehouseStatusStub "shipped") }
      else if status = "delivered" then
        { inventory := none
          delivery := some (updateDeliveryStatusStub "delivered")
          warehouse := some (updateWarehouseStatusStub "completed") }
      else if status = "cancelled" then
        { inventory := some (restoreInventoryForCancelledOrder order)
          delivery := some (updateDeliveryStatusStub "cancelled")
          warehouse := some (updateWarehouseStatusStub "cancelled") }
      else { inventory := none, delivery := none, warehouse := none }
    (.ok order results, db1)

/-! Shared concrete data for witnesses and counterexamples. -/

/-- A provider oracle on which every external call fails. -/
def failProvider : Provider :=
  { geocode := fun _ => none
    routes := fun _ _ => none
    distMatrix := fun _ _ => none
    directions := fun _ _ _ => none }

/-- A concrete environment whose provider always fails. -/
def failEnv : Env :=
  { now := 1700000000000
    provider := failProvider
    etaRand := 1 / 2
    latJitter := 1 / 2
    lngJitter := 1 / 2
    partnerIdx := 0
    driverIdx := 0
    workerIdx := 0
    orderRecId := 1
    genOrderId := "ORD-GEN-1"
    genProductId := "PROD-GEN-1"
    deliveryId := "DEL-1"
    vehicleId := "VEH-1"
    warehouseId := "WH-1"
    binLocation := "Section A1"
    shelfNumber := "S1" }

/-- A concrete stored order. -/
def sampleOrder : StoredOrder :=
  { id := 1
    order_id := "ORD-1"
    customer_name := "John Doe"
    customer_email := "john@example.com"
    product_id := "P-1"
    product_name := "Laptop"
    quantity := 3
    price := 800
    status := "pending"
    delivery_address := "1 Main St"
    payment_method := "Credit Card" }

/-- A concrete stored product whose stock is 2 (what remains after the
sample order's inventory step decremented 5 to 2). -/
def sampleLaptop : Product :=
  { id := 7
    sku := "SKU-10001"
    name := "Laptop"
    stock_quantity := 2
    quantity_alt := 0
    reorder_level := 5
    min_stock_level := 0
    price := 800
    cost := 600
    supplier := "Supplier 1"
    location := "A1"
    status := "active" }

/-! Claim C5. -/

/-- C5: for the in-memory Delivery model, `updateStatus` with
`delivered` (resp. `picked_up`) sets `actual_delivery_time` (resp.
`pickup_time`) only when it is not already set, and a second application
of the same status leaves the previously set timestamp unchanged. -/
theorem delivery_updateStatus_timestamp_idempotent (d : DeliveryModel) (t1 t2 : ℚ) :
    ((d.updateStatus "delivered" t1).2.actual_delivery_time
        = some (d.actual_delivery_time.getD t1))
    ∧ (((d.updateStatus "delivered" t1).2.updateStatus "delivered" t2).2.actual_delivery_time
        = (d.updateStatus "delivered" t1).2.actual_delivery_time)
    ∧ ((d.updateStatus "picked_up" t1).2.pickup_time = some (d.pickup_time.getD t1))
    ∧ (((d.updateStatus "picked_up" t1).2.updateStatus "picked_up" t2).2.pickup_time
        = (d.updateStatus "picked_up" t1).2.pickup_time) := by
  cases hA : d.actual_delivery_time <;> cases hP : d.pickup_time <;>
    simp [DeliveryModel.updateStatus, deliveryValidStatuses, hA, hP]

/-! Claim C7. -/

/-- C7: `optimizeDeliveryRoute` with an empty destination list fails with
the `No destinations provided` error and issues zero provider calls. -/
theorem optimize_empty_destinations_no_provider_calls
    (origin : String) (p : Provider) (now : ℚ) :
    optimizeDeliveryRoute origin [] p now = (.failed "No destinations provided", []) := rfl

/-! Claim C8. -/

/-- C8: with a single destination, `optimizeDeliveryRoute` delegates to a
single `calculateRoute` leg; when the provider resolves that leg, the
returned route is exactly the leg's route — its distance (meters) and
duration (seconds) equal the provider's leg data — and the calls issued
are the two geocodes plus one route computation, with no directions
(waypoint-optimization) request. -/
theorem optimize_single_destination_single_leg
    (origin d : String) (p : Provider) (now : ℚ) (oc dc : Coord) (rd : RouteData)
    (h1 : p.geocode origin = some oc) (h2 : p.geocode d = some dc)
    (h3 : p.routes oc dc = some rd) :
    optimizeDeliveryRoute origin [d] p now
        = (.singleRoute (routeFromRoutesApi rd now),
           [.geocode origin, .geocode d, .routes oc dc])
    ∧ (routeFromRoutesApi rd now).distance.meters = rd.distanceMeters
    ∧ (routeFromRoutesApi rd now).duration.seconds = rd.durationSeconds := by
  refine ⟨?_, rfl, rfl⟩
  simp [optimizeDeliveryRoute, calculateRoute, h1, h2, h3]

/-- A provider that resolves exactly one leg, for the C8 witness. -/
def singleLegProvider : Provider :=
  { geocode := fun a =>
      if a = "Warehouse A" then some { lat := 10, lng := 20 }
      else if a = "Customer B" then some { lat := 11, lng := 21 }
      else none
    routes := fun o _ =>
      if o.lat = 10 then some { distanceMeters := 5000, durationSeconds := 600, polyline := some "poly" }
      else none
    distMatrix := fun _ _ => none
    directions := fun _ _ _ => none }

/-- Witness for C8 at a concrete provider. -/
theorem optimize_single_destination_single_leg_witness :
    singleLegProvider.geocode "Warehouse A" = some { lat := 10, lng := 20 }
    ∧ singleLegProvider.geocode "Customer B" = some { lat := 11, lng := 21 }
    ∧ singleLegProvider.routes { lat := 10, lng := 20 } { lat := 11, lng := 21 }
        = some { distanceMeters := 5000, durationSeconds := 600, polyline := some "poly" }
    ∧ (optimizeDeliveryRoute "Warehouse A" ["Customer B"] singleLegProvider 0
          = (.singleRoute (routeFromRoutesApi
              { distanceMeters := 5000, durationSeconds := 600, polyline := some "poly" } 0),
             [.geocode "Warehouse A", .geocode "Customer B",
              .routes { lat := 10, lng := 20 } { lat := 11, lng := 21 }])
        ∧ (routeFromRoutesApi
            { distanceMeters := 5000, durationSeconds := 600, polyline := some "poly" } 0).distance.meters
              = (5000 : ℚ)
        ∧ (routeFromRoutesApi
            { distanceMeters := 5000, durationSeconds := 600, polyline := some "poly" } 0).duration.seconds
              = 600) :=
  ⟨by decide, by decide, by decide,
   optimize_single_destination_single_leg "Warehouse A" "Customer B" singleLegProvider 0
     { lat := 10, lng := 20 } { lat := 11, lng := 21 }
     { distanceMeters := 5000, durationSeconds := 600, polyline := some "poly" }
     (by decide) (by decide) (by decide)⟩

/-! Claim C1: plumbing lemmas showing the downstream steps never touch
the orders collection, then the validation theorem. -/

/-- A successful product update only rewrites the products collection. -/
theorem updateProductStore_ok_orders {db : DB} {id ns : ℤ} {st : String} {db2 : DB}
    (h : updateProductStore db id ns st = .ok db2) : db2.orders = db.orders := by
  unfold updateProductStore at h
  split_ifs at h <;> simp_all <;> rw [← h]

/-- A successful delivery insert only rewrites the deliveries collection. -/
theorem createDeliveryStore_ok_orders {db : DB} {d : DeliveryPayload} {now : ℚ} {db2 : DB}
    (h : createDeliveryStore db d now = .ok db2) : db2.orders = db.orders := by
  unfold createDeliveryStore at h
  split_ifs at h <;> simp_all <;> rw [← h]

/-- A successful warehouse insert only rewrites the warehouses collection. -/
theorem createWarehouseStore_ok_orders {db : DB} {w : WarehousePayload} {db2 : DB}
    (h : createWarehouseStore db w = .ok db2) : db2.orders = db.orders := by
  unfold createWarehouseStore at h
  split_ifs at h
  simp_all
  rw [← h]

/-- The inventory step never writes the orders collection. -/
theorem updateInventory_preserves_orders (o : StoredOrder) (db : DB) :
    (updateInventoryForOrder o db).2.orders = db.orders := by
  simp only [updateInventoryForOrder]
  cases hf : db.products.find? (fun p => productNameMatches p o.product_name) with
  | none => rfl
  | some product =>
    simp only []
    cases h : updateProductStore db product.id
        (max 0 (jsOrI product.stock_quantity (jsOrI product.quantity_alt 100) - o.quantity))
        (stockStatusFor (max 0 (jsOrI product.stock_quantity (jsOrI product.quantity_alt 100) - o.quantity))
          (jsOrI product.reorder_level (jsOrI product.min_stock_level 10))) with
    | ok db2 => simp only [h]; exact updateProductStore_ok_orders h
    | error e => simp only [h]

/-- The delivery step never writes the orders collection. -/
theorem createDelivery_preserves_orders (o : StoredOrder) (db : DB) (env : Env) :
    (createDeliveryForOrder o db env).2.orders = db.orders := by
  simp only [createDeliveryForOrder]
  cases h : createDeliveryStore db (mkDeliveryPayload o env) env.now with
  | ok db2 => simp only [h]; exact createDeliveryStore_ok_orders h
  | error e => simp only [h]

/-- The warehouse step never writes the orders collection. -/
theorem updateWarehouse_preserves_orders (o : StoredOrder) (db : DB) (env : Env) :
    (updateWarehouseForOrder o db env).2.orders = db.orders := by
  simp only [updateWarehouseForOrder]
  cases h : createWarehouseStore db (mkWarehousePayload o env) with
  | ok db2 => simp only [h]; exact createWarehouseStore_ok_orders h
  | error e => simp only [h]

/-- C1 (amended): in the database-connected mode, `placeOrder` fails
with a validation error and leaves the store untouched exactly when the
input violates the Mongo order schema (which accepts `price = 0`:
`min: 0`, not `> 0`); for schema-valid input it stores exactly one new
order — with status `pending` when the input carries no status — and
returns it with a non-null integration report. -/
theorem placeOrder_schema_validation (i : OrderInput) (db : DB) (env : Env)
    (hm : db.mongo = true) :
    (validateOrderInput i env = false →
      placeOrder i db env = (.error "Order validation failed", db))
    ∧ (validateOrderInput i env = true →
      ∃ report db2, placeOrder i db env = (.ok (mkMongoOrder i env) report, db2)
        ∧ db2.orders = db.orders ++ [mkMongoOrder i env]
        ∧ report.order_created = true
        ∧ (i.status = none → (mkMongoOrder i env).status = "pending")) := by
  constructor
  · intro hv
    simp [placeOrder, createOrderStore, hm, hv]
  · intro hv
    have h1 : createOrderStore db i env
        = .ok (mkMongoOrder i env, { db with orders := db.orders ++ [mkMongoOrder i env] }) := by
      simp [createOrderStore, hm, hv]
    simp only [placeOrder, h1]
    refine ⟨_, _, rfl, ?_, rfl, ?_⟩
    · rw [updateWarehouse_preserves_orders, createDelivery_preserves_orders,
        updateInventory_preserves_orders]
    · intro hs
      simp [mkMongoOrder, jsOrStr, hs]

/-- A schema-valid order input. -/
def validInput : OrderInput :=
  { order_id := none
    customer_name := some "John Doe"
    customer_email := some "john@example.com"
    product_id := none
    product_name := some "Laptop"
    quantity := some 2
    price := some 40
    status := none
    delivery_address := some "1 Main St"
    payment_method := none }

/-- The empty database-connected store. -/
def mongoEmptyDb : DB :=
  { mongo := true, orders := [], products := [], deliveries := [], warehouses := [] }

/-- Witness for C1: the valid branch at a concrete valid input. -/
theorem placeOrder_schema_validation_witness :
    mongoEmptyDb.mongo = true
    ∧ validateOrderInput validInput failEnv = true
    ∧ (∃ report db2,
        placeOrder validInput mongoEmptyDb failEnv
            = (.ok (mkMongoOrder validInput failEnv) report, db2)
        ∧ db2.orders = mongoEmptyDb.orders ++ [mkMongoOrder validInput failEnv]
        ∧ report.order_created = true
        ∧ (validInput.status = none → (mkMongoOrder validInput failEnv).status = "pending")) :=
  ⟨rfl, by decide,
   (placeOrder_schema_validation validInput mongoEmptyDb failEnv rfl).2 (by decide)⟩

/-- The claim's price-zero input: every field present and valid except
that the price is `0`, which the claim calls invalid (`price > 0`). -/
def priceZeroInput : OrderInput :=
  { order_id := some "ORD-Z"
    customer_name := some "John Doe"
    customer_email := some "john@example.com"
    product_id := some "P-9"
    product_name := some "Laptop"
    quantity := some 2
    price := some 0
    status := none
    delivery_address := some "1 Main St"
    payment_method := none }

/-- Counterexample to C1 as stated: an input with `price = 0` (invalid
per the claim, which requires `price > 0`) is accepted by the code even
in database-connected mode — the request succeeds and an order record is
created instead of failing with a validation error. -/
theorem placeOrder_price_zero_accepted :
    priceZeroInput.price = some 0
    ∧ ¬ (0 : ℚ) > 0
    ∧ (placeOrder priceZeroInput mongoEmptyDb failEnv).1.isOk = true
    ∧ (placeOrder priceZeroInput mongoEmptyDb failEnv).2.orders.length = 1 := by
  refine ⟨rfl, by norm_num, by decide, by decide⟩

/-! Claim C9. -/

/-- C9 (amended): in database-connected mode, a status outside the order
enum makes the update validators reject the write — the route answers
with a server error and the store is untouched. (The mock-fallback
branch performs no such validation; see the counterexample.) -/
theorem invalid_status_rejected_mongo (db : DB) (id : ℤ) (s : String)
    (hm : db.mongo = true) (hs : s ∉ orderStatuses) :
    updateOrderStatusRoute db id s = (.serverError "Order validation failed: status", db) := by
  simp [updateOrderStatusRoute, updateOrderStore, hm, hs]

/-- A database-connected store holding the sample order. -/
def mongoOrderDb : DB :=
  { mongo := true, orders := [sampleOrder], products := [], deliveries := [], warehouses := [] }

/-- Witness for C9 at the out-of-enum status `archived`. -/
theorem invalid_status_rejected_mongo_witness :
    mongoOrderDb.mongo = true
    ∧ "archived" ∉ orderStatuses
    ∧ updateOrderStatusRoute mongoOrderDb 1 "archived"
        = (.serverError "Order validation failed: status", mongoOrderDb) :=
  ⟨rfl, by decide, invalid_status_rejected_mongo mongoOrderDb 1 "archived" rfl (by decide)⟩

/-- A mock-fallback store holding the sample order. -/
def mockOrderDb : DB :=
  { mongo := false, orders := [sampleOrder], products := [], deliveries := [], warehouses := [] }

/-- Counterexample to C9 as stated: in mock-fallback mode the same
out-of-enum status `archived` is stored on the order and the route
answers success — the operation neither fails nor leaves the state
unchanged. -/
theorem invalid_status_stored_in_mock_mode :
    updateOrderStatusRoute mockOrderDb 1 "archived"
        = (.ok { sampleOrder with status := "archived" }
             { inventory := none, delivery := none, warehouse := none },
           { mockOrderDb with orders := [{ sampleOrder with status := "archived" }] })
    ∧ "archived" ∉ orderStatuses := ⟨by decide, by decide⟩

/-! Claim C2. -/

/-- A database-connected store with the sample order (quantity 3) and
its product at stock 2 — the claim's `stockAfterFulfillment`. -/
def cancelDb : DB :=
  { mongo := true, orders := [sampleOrder], products := [sampleLaptop],
    deliveries := [], warehouses := [] }

/-- C2 is a code bug: cancelling the sample order (quantity 3, product
stock 2) leaves the stored stock at 2 — `restoreInventoryForCancelledOrder`
only echoes `restored_quantity = 3` without performing any store write —
whereas the claim requires the stock to become 2 + 3. -/
theorem cancelled_order_stock_not_restored :
    updateOrderStatusRoute cancelDb 1 "cancelled"
        = (.ok { sampleOrder with status := "cancelled" }
             { inventory := some
                 { success := true, restored_quantity := 3, product_name := "Laptop" }
               delivery := some { success := true, new_status := "cancelled" }
               warehouse := some { success := true, new_status := "cancelled" } },
           { cancelDb with orders := [{ sampleOrder with status := "cancelled" }] })
    ∧ (updateOrderStatusRoute cancelDb 1 "cancelled").2.products.map
        (fun p => p.stock_quantity) = [2]
    ∧ (2 : ℤ) ≠ 2 + 3 := ⟨by decide, by decide, by decide⟩

/-! Claim C4. -/

/-- An order update that succeeds touches only the orders collection. -/
theorem updateOrderStore_collections {db : DB} {id : ℤ} {s : String}
    {o : StoredOrder} {db1 : DB}
    (h : updateOrderStore db id s = .ok (some (o, db1))) :
    db1.deliveries = db.deliveries ∧ db1.warehouses = db.warehouses
      ∧ db1.products = db.products := by
  unfold updateOrderStore at h
  cases hmb : db.mongo <;> rw [hmb] at h <;> simp only [Bool.false_eq_true, Bool.true_eq_false,
    if_true, if_false, reduceIte] at h
  case false =>
    cases hs : setOrderStatus id s db.orders with
    | none => rw [hs] at h; simp at h
    | some pr =>
      obtain ⟨o2, orders2⟩ := pr
      rw [hs] at h
      simp only [Except.ok.injEq, Option.some.injEq, Prod.mk.injEq] at h
      rw [← h.2]
      exact ⟨rfl, rfl, rfl⟩
  case true =>
    by_cases hc : orderStatuses.contains s = true
    · rw [if_pos hc] at h
      cases hs : setOrderStatus id s db.orders with
      | none => rw [hs] at h; simp at h
      | some pr =>
        obtain ⟨o2, orders2⟩ := pr
        rw [hs] at h
        simp only [Except.ok.injEq, Option.some.injEq, Prod.mk.injEq] at h
        rw [← h.2]
        exact ⟨rfl, rfl, rfl⟩
    · rw [if_neg hc] at h
      simp at h

/-- C4 (amended): updating an order's status to `shipped` changes only
the order record; the delivery and warehouse "propagations" are
store-free stubs that merely echo success with `new_status` `in-transit`
(delivery) respectively `shipped` (warehouse) in the integration
results, and every stored Delivery and WarehouseTask record is left
exactly as it was. -/
theorem shipped_propagation_stub_behavior (db : DB) (id : ℤ) (o : StoredOrder)
    (res : StatusIntegration) (db2 : DB)
    (h : updateOrderStatusRoute db id "shipped" = (.ok o res, db2)) :
    res.delivery = some { success := true, new_status := "in-transit" }
    ∧ res.warehouse = some { success := true, new_status := "shipped" }
    ∧ res.inventory = none
    ∧ db2.deliveries = db.deliveries
    ∧ db2.warehouses = db.warehouses
    ∧ db2.products = db.products := by
  unfold updateOrderStatusRoute at h
  cases hu : updateOrderStore db id "shipped" with
  | error e => rw [hu] at h; simp at h
  | ok oo =>
    cases oo with
    | none => rw [hu] at h; simp at h
    | some pr =>
      obtain ⟨o1, db1⟩ := pr
      rw [hu] at h
      simp only [updateDeliveryStatusStub, updateWarehouseStatusStub,
        reduceIte, PatchResult.ok.injEq, Prod.mk.injEq] at h
      obtain ⟨⟨ho, hres⟩, hdb⟩ := h
      obtain ⟨hd, hw, hp⟩ := updateOrderStore_collections hu
      subst hdb
      rw [← hres]
      exact ⟨rfl, rfl, rfl, hd, hw, hp⟩

/-- A concrete stored delivery record with status `pending`, attached to
the sample order. -/
def sampleDeliveryRec : DeliveryModel :=
  { delivery_id := "DEL-0"
    order_id := "ORD-1"
    driver_name := "Mike Johnson"
    vehicle_id := "VEH-9"
    pickup_address := warehouseAddress
    delivery_address := "1 Main St"
    pickup_time := none
    estimated_delivery_time := some 1700000000000
    actual_delivery_time := none
    status := "pending"
    notes := ""
    priority := "normal"
    updated_at := 1700000000000 }

/-- A database-connected store with the sample order and its pending
delivery record. -/
def shipDb : DB :=
  { mongo := true, orders := [sampleOrder], products := [],
    deliveries := [sampleDeliveryRec], warehouses := [] }

/-- The expected post-state pieces of shipping the sample order. -/
def shippedOrder : StoredOrder := { sampleOrder with status := "shipped" }

/-- The integration results echoed for the shipped transition. -/
def shippedResults : StatusIntegration :=
  { inventory := none
    delivery := some { success := true, new_status := "in-transit" }
    warehouse := some { success := true, new_status := "shipped" } }

/-- The store after shipping the sample order: only the order changed. -/
def shippedDb2 : DB := { shipDb with orders := [shippedOrder] }

/-- Counterexample to C4 as stated: after updating the sample order to
`shipped`, the attached delivery record still has status `pending` — it
was never set to `in_transit` (the code merely echoes the hyphenated
literal `in-transit` in the response), and no warehouse record was
touched. -/
theorem shipped_leaves_delivery_status_unchanged :
    updateOrderStatusRoute shipDb 1 "shipped" = (.ok shippedOrder shippedResults, shippedDb2)
    ∧ (updateOrderStatusRoute shipDb 1 "shipped").2.deliveries.map (fun d => d.status)
        = ["pending"]
    ∧ ("pending" : String) ≠ "in_transit" := ⟨by decide, by decide, by decide⟩

/-- Witness for C4 at the concrete shipping scenario. -/
theorem shipped_propagation_stub_behavior_witness :
    updateOrderStatusRoute shipDb 1 "shipped" = (.ok shippedOrder shippedResults, shippedDb2)
    ∧ (shippedResults.delivery = some { success := true, new_status := "in-transit" }
       ∧ shippedResults.warehouse = some { success := true, new_status := "shipped" }
       ∧ shippedResults.inventory = none
       ∧ shippedDb2.deliveries = shipDb.deliveries
       ∧ shippedDb2.warehouses = shipDb.warehouses
       ∧ shippedDb2.products = shipDb.products) :=
  ⟨by decide, shipped_propagation_stub_behavior shipDb 1 shippedOrder shippedResults shippedDb2
    (by decide)⟩

/-! Claim C3. -/

/-- The status strings the inventory step writes are never members of
the product schema's status enum. -/
theorem stockStatusFor_not_in_enum (ns rl : ℤ) :
    productStatuses.contains (stockStatusFor ns rl) = false := by
  unfold stockStatusFor
  split_ifs <;> decide

/-- C3 (amended): for a product found with nonzero prior stock `s`, the
inventory step computes `newStock = max(0, s - q)` and reports it with
`low_stock_alert = (newStock < reorderLevel)` and
`reorder_triggered = (newStock ≤ reorderLevel)` — no clamped flag exists
in the report. In mock-fallback mode the store is updated to that
value; in database-connected mode the write is always rejected (the
derived product status is outside the schema enum), the step reports
failure, and the store is unchanged. (For `s = 0` the `||` chain
replaces the stock with a fallback baseline — see the
counterexample.) -/
theorem inventory_step_nonzero_stock_formula (order : StoredOrder) (db : DB) (p : Product)
    (hf : db.products.find? (fun q => productNameMatches q order.product_name) = some p)
    (hs : p.stock_quantity ≠ 0) :
    (db.mongo = false →
      (updateInventoryForOrder order db).1.success = true
      ∧ (updateInventoryForOrder order db).1.details = some
          { product_name := order.product_name
            quantity_reduced := order.quantity
            new_stock_level := max 0 (p.stock_quantity - order.quantity)
            low_stock_alert := decide (max 0 (p.stock_quantity - order.quantity)
              < jsOrI p.reorder_level (jsOrI p.min_stock_level 10))
            previous_stock := some p.stock_quantity
            reorder_triggered := decide (max 0 (p.stock_quantity - order.quantity)
              ≤ jsOrI p.reorder_level (jsOrI p.min_stock_level 10)) }
      ∧ (updateInventoryForOrder order db).2.products
          = setProductStock p.id (max 0 (p.stock_quantity - order.quantity))
              (stockStatusFor (max 0 (p.stock_quantity - order.quantity))
                (jsOrI p.reorder_level (jsOrI p.min_stock_level 10))) db.products)
    ∧ (db.mongo = true →
      (updateInventoryForOrder order db).1.success = false
      ∧ (updateInventoryForOrder order db).2 = db) := by
  have hcur : jsOrI p.stock_quantity (jsOrI p.quantity_alt 100) = p.stock_quantity := by
    simp [jsOrI, hs]
  constructor
  · intro hm
    simp only [updateInventoryForOrder, hf, hcur, updateProductStore, hm,
      Bool.false_eq_true, if_false, reduceIte]
    refine ⟨?_, ?_, ?_⟩ <;> trivial
  · intro hm
    have he := stockStatusFor_not_in_enum
      (max 0 (p.stock_quantity - order.quantity))
      (jsOrI p.reorder_level (jsOrI p.min_stock_level 10))
    simp only [updateInventoryForOrder, hf, hcur, updateProductStore, hm, if_true,
      he, Bool.and_false, if_false, reduceIte]
    refine ⟨?_, ?_⟩ <;> trivial

/-- A mock-fallback store with the sample product (stock 2). -/
def mockInvDb : DB :=
  { mongo := false, orders := [], products := [sampleLaptop],
    deliveries := [], warehouses := [] }

/-- Witness for C3: the sample order (quantity 3) against the sample
product (stock 2, reorder level 5) yields newStock = max(0, 2 - 3) = 0
with both alert flags set. -/
theorem inventory_step_nonzero_stock_formula_witness :
    (mockInvDb.products.find? (fun q => productNameMatches q sampleOrder.product_name)
        = some sampleLaptop)
    ∧ sampleLaptop.stock_quantity ≠ 0
    ∧ (updateInventoryForOrder sampleOrder mockInvDb).1.success = true
    ∧ (updateInventoryForOrder sampleOrder mockInvDb).1.details = some
        { product_name := "Laptop", quantity_reduced := 3, new_stock_level := 0,
          low_stock_alert := true, previous_stock := some 2, reorder_triggered := true } :=
  ⟨by decide, by decide,
   ((inventory_step_nonzero_stock_formula sampleOrder mockInvDb sampleLaptop (by decide)
      (by decide)).1 rfl).1,
   by
     have h := ((inventory_step_nonzero_stock_formula sampleOrder mockInvDb sampleLaptop
       (by decide) (by decide)).1 rfl).2.1
     rw [h]
     decide⟩

/-- A product whose stored stock is exactly 0. -/
def zeroStockProduct : Product :=
  { id := 9
    sku := "SKU-10009"
    name := "Widget"
    stock_quantity := 0
    quantity_alt := 0
    reorder_level := 10
    min_stock_level := 0
    price := 5
    cost := 3
    supplier := "Supplier 9"
    location := "B1"
    status := "active" }

/-- An order of quantity 5 for the zero-stock product. -/
def zeroStockOrder : StoredOrder :=
  { id := 2
    order_id := "ORD-2"
    customer_name := "Jane Roe"
    customer_email := "jane@example.com"
    product_id := "P-2"
    product_name := "Widget"
    quantity := 5
    price := 5
    status := "pending"
    delivery_address := "2 Main St"
    payment_method := "Credit Card" }

/-- A mock-fallback store holding the zero-stock product. -/
def zeroStockDb : DB :=
  { mongo := false, orders := [zeroStockOrder], products := [zeroStockProduct],
    deliveries := [], warehouses := [] }

/-- Counterexample to C3 as stated: for a found product with prior stock
`s = 0` and order quantity `q = 5`, the claim requires
`newStock = max(0, 0 - 5) = 0`, but the `stock_quantity || quantity || 100`
chain treats the stock 0 as falsy, so the code computes and stores
`max(0, 100 - 5) = 95`. (The report also carries no clamped flag at
all, only `low_stock_alert`/`reorder_triggered`.) -/
theorem inventory_step_zero_stock_baseline :
    zeroStockProduct.stock_quantity = 0
    ∧ ((updateInventoryForOrder zeroStockOrder zeroStockDb).1.details.map
        (fun d => d.new_stock_level)) = some 95
    ∧ ((95 : ℤ) ≠ max 0 (0 - 5))
    ∧ (updateInventoryForOrder zeroStockOrder zeroStockDb).2.products.map
        (fun p => p.stock_quantity) = [95] :=
  ⟨rfl, by decide, by decide, by decide⟩

/-! Claims C6 and C10: behaviour of the delivery step when the route
computation fails. -/

